import Mathlib

/-!
Verification of `src/gui/include/tiny-cuda-nn/cuda_graph.h` (class `tcnn::CudaGraph`).

The header implements a CUDA graph capture/update/replay manager:

* a thread-local `std::deque<CudaGraph*>` (`current_captures`) records the
  managers with an open capture, pushed with `push_back` and popped with
  `pop_back` (so the deque's back is the most recently opened capture);
* `current_capture()` returns `current_captures().front()` when the deque is
  non-empty and `nullptr` otherwise;
* `capture_guard(stream)` checks the legality/skip conditions, destroys any
  pre-existing `m_graph`, begins device recording, pushes `this` onto the
  deque and returns a `ScopeGuard` whose finalize lambda ends the capture,
  enforces LIFO ordering, optionally synchronizes, and then either updates
  the cached `m_graph_instance` in place or rebuilds it before launching;
* `reset()` destroys `m_graph` and `m_graph_instance` when present;
* the destructor calls `reset()` and swallows every `std::runtime_error`,
  logging it unless its message contains "driver shutting down".

We embed the manager state as a structure over `Option Nat` handles (`Nat`
tracks handle identity), the thread-local deque as a `List Nat` of manager
identifiers (front = head, back = last), and the CUDA runtime's responses as
explicit environment records.  Device-side effects (destroy, begin/end
capture, update, instantiate, launch, synchronize) are recorded as an event
trace so that claims about "what the device was asked to do" are statable.
-/

namespace tcnn

/-- Result of the `cudaStreamIsCapturing` query (`cudaStreamCaptureStatus`). -/
inductive CaptureStatus where
  | statusNone
  | active
  | invalidated
deriving DecidableEq, Repr

/-- Model of a `cudaStream_t` argument: the null stream, the legacy/default
stream (`cudaStreamLegacy`), or an ordinary stream with an identifier. -/
inductive CudaStream where
  | nullStream
  | legacyStream
  | stream (id : Nat)
deriving DecidableEq, Repr

/-- Device-side actions issued by the manager, in issue order. -/
inductive Event where
  | destroyGraph (h : Nat)
  | destroyExec (h : Nat)
  | beginCapture
  | deviceSynchronize
  | execUpdate (exec tmpl : Nat)
  | instantiate (h : Nat)
  | launch (h : Nat)
deriving DecidableEq, Repr

/-- Recognizer for `Event.instantiate` events, used to count rebuilds. -/
def Event.isInstantiate : Event → Bool
  | .instantiate _ => true
  | _ => false

/-- The private state of a `tcnn::CudaGraph` manager: the captured graph
template `m_graph`, the instantiated executable `m_graph_instance` (both
nullable handles), and the `m_synchronize_when_capture_done` flag. -/
structure CudaGraph where
  m_graph : Option Nat := none
  m_graph_instance : Option Nat := none
  m_synchronize_when_capture_done : Bool := false
deriving DecidableEq, Repr

/-- The thread-local Capture Session Stack (`current_captures()`): manager
identifiers, deque front first; `push_back` appends at the end. -/
abbrev CaptureStack := List Nat

/-- `current_captures().push_back(x)`. -/
def push_back (s : CaptureStack) (x : Nat) : CaptureStack := s ++ [x]

/-- `current_capture()`: `current_captures().empty() ? nullptr :
current_captures().front()` — the deque's front, or none when empty. -/
def current_capture (s : CaptureStack) : Option Nat := s.head?

/-- Result of querying `cudaStreamIsCapturing(cudaStreamLegacy, ...)`: a
successful query with a status, the special `cudaErrorStreamCaptureImplicit`
error, or any other error (which `CUDA_CHECK_THROW` turns into an exception
with a message). -/
inductive LegacyQuery where
  | ok (status : CaptureStatus)
  | implicitErr
  | otherErr (msg : String)
deriving DecidableEq, Repr

/-- The CUDA runtime's responses consumed by the begin half of
`capture_guard`: the capture-status query on the given stream (an error is
thrown by `CUDA_CHECK_THROW`), the query on the legacy stream, and whether
`cudaStreamBeginCapture` fails (with what message). -/
structure BeginEnv where
  stream_query : Except String CaptureStatus
  legacy_query : LegacyQuery
  begin_result : Option String
deriving Repr

/-- How `capture_guard` returns: an exception propagated to the caller, the
inert empty guard `ScopeGuard{}` (no finalize action registered), or a live
guard whose destructor will run the finalize lambda. -/
inductive GuardKind where
  | err (msg : String)
  | inert
  | capturing
deriving DecidableEq, Repr

/-- Everything observable about a `capture_guard` call: the kind of guard
returned, the manager state afterwards, the thread's capture deque
afterwards, and the device-side events issued. -/
structure BeginOutcome where
  guard : GuardKind
  state : CudaGraph
  stack : CaptureStack
  events : List Event
deriving DecidableEq, Repr

/-- The begin half of `CudaGraph::capture_guard(stream)`, up to returning the
`ScopeGuard`.  Mirrors the source order: null/legacy-stream check, capture
status of `stream` (throwing on query error), capture status of the legacy
stream (inert on `cudaErrorStreamCaptureImplicit`, throwing on other errors),
then destruction of a pre-existing `m_graph`, `cudaStreamBeginCapture`, and
`current_captures().push_back(this)`. -/
def capture_guard_begin (g : CudaGraph) (gid : Nat) (stream : CudaStream)
    (env : BeginEnv) (stack : CaptureStack) : BeginOutcome :=
  if stream = .nullStream ∨ stream = .legacyStream then
    ⟨.inert, g, stack, []⟩
  else
    match env.stream_query with
    | .error e => ⟨.err e, g, stack, []⟩
    | .ok st =>
      if st ≠ .statusNone then ⟨.inert, g, stack, []⟩
      else
        match env.legacy_query with
        | .implicitErr => ⟨.inert, g, stack, []⟩
        | .otherErr e => ⟨.err e, g, stack, []⟩
        | .ok st2 =>
          if st2 ≠ .statusNone then ⟨.inert, g, stack, []⟩
          else
            let destroyed :=
              match g.m_graph with
              | some h => ({ g with m_graph := none }, [Event.destroyGraph h])
              | none => (g, ([] : List Event))
            match env.begin_result with
            | some e => ⟨.err e, destroyed.1, stack, destroyed.2⟩
            | none =>
              ⟨.capturing, destroyed.1, push_back stack gid,
                destroyed.2 ++ [Event.beginCapture]⟩

/-- The CUDA runtime's responses consumed by the finalize lambda: the graph
handle `cudaStreamEndCapture` writes into `m_graph` (none when the capture
failed and no usable graph was produced), whether `cudaGraphExecUpdate`
reports `cudaGraphExecUpdateSuccess`, and the handle a fresh
`cudaGraphInstantiate` would produce. -/
structure EndEnv where
  captured_graph : Option Nat
  update_success : Bool
  fresh_instance : Nat
deriving DecidableEq, Repr

/-- The message of the LIFO-ordering exception thrown by the finalize
lambda. -/
def order_error_msg : String :=
  "CudaGraph: must end captures in reverse order of creation."

/-- Steps 6-8 of finalize, executed when `m_graph` holds a usable template
`tmpl`: if `m_graph_instance` exists, try `cudaGraphExecUpdate`; on update
failure destroy the stale instance; if no instance remains, instantiate a
fresh one; finally `cudaGraphLaunch` the instance. -/
def update_or_rebuild (g : CudaGraph) (tmpl : Nat) (env : EndEnv) :
    CudaGraph × List Event :=
  match g.m_graph_instance with
  | some e =>
    if env.update_success then
      (g, [Event.execUpdate e tmpl, Event.launch e])
    else
      ({ g with m_graph_instance := some env.fresh_instance },
        [Event.execUpdate e tmpl, Event.destroyExec e,
          Event.instantiate env.fresh_instance,
          Event.launch env.fresh_instance])
  | none =>
    ({ g with m_graph_instance := some env.fresh_instance },
      [Event.instantiate env.fresh_instance, Event.launch env.fresh_instance])

/-- The finalize lambda after the LIFO check and pop: the optional
`cudaDeviceSynchronize` (clearing the flag), then either the failed-capture
cleanup (destroy the instance, null both handles, no launch) when `m_graph`
is null, or the update/rebuild/launch path. -/
def finalize_body (g : CudaGraph) (env : EndEnv) : CudaGraph × List Event :=
  let synced :=
    if g.m_synchronize_when_capture_done then
      ({ g with m_synchronize_when_capture_done := false },
        [Event.deviceSynchronize])
    else (g, ([] : List Event))
  match synced.1.m_graph with
  | none =>
    let cleanup :=
      match synced.1.m_graph_instance with
      | some e => [Event.destroyExec e]
      | none => ([] : List Event)
    ({ synced.1 with m_graph := none, m_graph_instance := none },
      synced.2 ++ cleanup)
  | some tmpl =>
    let rest := update_or_rebuild synced.1 tmpl env
    (rest.1, synced.2 ++ rest.2)

/-- The finalize lambda of `CudaGraph::capture_guard` for manager `gid`:
`cudaStreamEndCapture` stores `env.captured_graph` into `m_graph`; then the
manager must be the back of `current_captures()` or the ordering exception is
thrown; on success the deque is popped and `finalize_body` runs.  Returns the
new manager state, the new deque, and the device events. -/
def capture_guard_finalize (g : CudaGraph) (gid : Nat) (stack : CaptureStack)
    (env : EndEnv) : Except String (CudaGraph × CaptureStack × List Event) :=
  let g1 := { g with m_graph := env.captured_graph }
  if stack.getLast? ≠ some gid then
    .error order_error_msg
  else
    let rest := finalize_body g1 env
    .ok (rest.1, stack.dropLast, rest.2)

/-- `CudaGraph::reset()`: destroy `m_graph` if present, then
`m_graph_instance` if present. -/
def reset (g : CudaGraph) : CudaGraph × List Event :=
  let first :=
    match g.m_graph with
    | some h => ({ g with m_graph := none }, [Event.destroyGraph h])
    | none => (g, ([] : List Event))
  match first.1.m_graph_instance with
  | some h =>
    ({ first.1 with m_graph_instance := none },
      first.2 ++ [Event.destroyExec h])
  | none => first

/-- `CudaGraph::schedule_synchronize()`. -/
def schedule_synchronize (g : CudaGraph) : CudaGraph :=
  { g with m_synchronize_when_capture_done := true }

/-- The substring the destructor looks for in a cleanup error's message. -/
def driver_shutdown_msg : String := "driver shutting down"

/-- Whether `pat` is an initial segment of `text` (character lists). -/
def starts_with : List Char → List Char → Bool
  | [], _ => true
  | _ :: _, [] => false
  | p :: ps, c :: cs => p == c && starts_with ps cs

/-- Whether `pat` occurs as a contiguous substring of `text`. -/
def occurs_in (pat : List Char) : List Char → Bool
  | [] => starts_with pat []
  | c :: cs => starts_with pat (c :: cs) || occurs_in pat cs

/-- `std::string{error.what()}.find("driver shutting down") !=
std::string::npos`: the message mentions the driver shutting down. -/
def mentions_driver_shutdown (msg : String) : Bool :=
  occurs_in driver_shutdown_msg.data msg.data

/-- Everything observable about running the destructor: whether an exception
escaped to the caller, whether `log_warning` ran, and the final state when
`reset()` completed (none when `reset()` threw midway). -/
structure DtorOutcome where
  propagated : Option String
  logged_warning : Bool
  final : Option CudaGraph
deriving DecidableEq, Repr

/-- `CudaGraph::~CudaGraph()`: run `reset()` inside a try/catch;
`reset_error` is the `std::runtime_error` it throws, if any.  A caught error
is never rethrown; it is logged exactly when its message does not contain
"driver shutting down". -/
def destructor (g : CudaGraph) (reset_error : Option String) : DtorOutcome :=
  match reset_error with
  | none => ⟨none, false, some (reset g).1⟩
  | some e => ⟨none, !mentions_driver_shutdown e, none⟩

/-- A `BeginEnv` in which every capture-status query succeeds with status
"not capturing" and `cudaStreamBeginCapture` succeeds: the manager proceeds
to capture. -/
def cleanEnv : BeginEnv :=
  ⟨Except.ok CaptureStatus.statusNone, LegacyQuery.ok CaptureStatus.statusNone,
    none⟩

/-- C1 (counterexample): push manager 1 then manager 2 onto the Capture
Session Stack; the most-recently-opened (back, most-recent-last) entry is 2,
but `current_capture` returns the front entry 1 — not the top of stack the
claim describes. -/
theorem C1_counterexample :
    current_capture (push_back (push_back [] 1) 2) = some 1 ∧
    (push_back (push_back [] 1) 2).getLast? = some 2 ∧
    current_capture (push_back (push_back [] 1) 2) ≠
      (push_back (push_back [] 1) 2).getLast? := by
  decide

/-- C1 (amended): `current_capture` returns none on the empty stack, and on a
non-empty stack the front (first-pushed, outermost) still-active capture:
pushing onto a non-empty stack leaves `current_capture` unchanged, and a push
onto the empty stack makes the pushed manager current. -/
theorem C1_current_capture_front (s : CaptureStack) (x : Nat) :
    current_capture ([] : CaptureStack) = none ∧
    current_capture (push_back s x) =
      (if s = [] then some x else current_capture s) := by
  refine ⟨rfl, ?_⟩
  cases s <;> simp [current_capture, push_back]

/-- C2: the finalize lambda raises the ordering-violation exception exactly
when the finalizing manager is not the most recently pushed (back) entry of
the Capture Session Stack; when it is the back entry, finalize pops it (the
stack becomes `dropLast`) and proceeds normally. -/
theorem C2_finalize_lifo (g : CudaGraph) (gid : Nat) (stack : CaptureStack)
    (env : EndEnv) :
    (capture_guard_finalize g gid stack env = .error order_error_msg ↔
      stack.getLast? ≠ some gid) ∧
    ((∃ g2 ev, capture_guard_finalize g gid stack env =
        .ok (g2, stack.dropLast, ev)) ↔ stack.getLast? = some gid) := by
  by_cases h : stack.getLast? = some gid <;>
    simp [capture_guard_finalize, h]

/-- C3: at finalize with a usable new template `tmpl` and an existing
executable `e`: if the in-place update succeeds, the same executable handle
`e` is kept (no instantiate, no destroy) and relaunched; if the update fails,
the stale executable is destroyed and exactly one fresh executable is
instantiated from the new template before the launch — the event trace is
pinned exactly in both cases. -/
theorem C3_update_vs_rebuild (g : CudaGraph) (gid e tmpl : Nat)
    (stack : CaptureStack) (env : EndEnv)
    (htop : stack.getLast? = some gid)
    (hexec : g.m_graph_instance = some e)
    (hcap : env.captured_graph = some tmpl) :
    ∃ g2 ev,
      capture_guard_finalize g gid stack env =
        Except.ok (g2, stack.dropLast, ev) ∧
      (env.update_success = true →
        g2.m_graph_instance = some e ∧
        (∀ h, Event.instantiate h ∉ ev) ∧
        (∀ h, Event.destroyExec h ∉ ev) ∧
        ev = (if g.m_synchronize_when_capture_done then
                [Event.deviceSynchronize] else []) ++
          [Event.execUpdate e tmpl, Event.launch e]) ∧
      (env.update_success = false →
        g2.m_graph_instance = some env.fresh_instance ∧
        ev.filter Event.isInstantiate =
          [Event.instantiate env.fresh_instance] ∧
        ev = (if g.m_synchronize_when_capture_done then
                [Event.deviceSynchronize] else []) ++
          [Event.execUpdate e tmpl, Event.destroyExec e,
            Event.instantiate env.fresh_instance,
            Event.launch env.fresh_instance]) := by
  cases hsy : g.m_synchronize_when_capture_done <;>
    cases hupd : env.update_success <;>
      · simp [capture_guard_finalize, finalize_body, update_or_rebuild,
          htop, hexec, hcap, hsy, hupd]
        exact ⟨_, _, ⟨rfl, rfl⟩, by simp [Event.isInstantiate, List.filter]⟩

/-- C3 (witness): a manager holding template 9 and executable 7, finalized on
a singleton stack with a successful capture of template 3 and a successful
update; the finalize call returns normally. -/
theorem C3_witness :
    ∃ g2 ev,
      capture_guard_finalize ⟨some 9, some 7, false⟩ 0 [0] ⟨some 3, true, 11⟩ =
        Except.ok (g2, [], ev) := by
  obtain ⟨g2, ev, hok, -, -⟩ :=
    C3_update_vs_rebuild ⟨some 9, some 7, false⟩ 0 7 3 [0] ⟨some 3, true, 11⟩
      rfl rfl rfl
  exact ⟨g2, ev, hok⟩

/-- C4: when recording yields no usable template (`captured_graph = none`),
finalize destroys any held executable, clears both `m_graph` and
`m_graph_instance` to none, and returns without issuing any launch. -/
theorem C4_capture_failed (g : CudaGraph) (gid : Nat) (stack : CaptureStack)
    (env : EndEnv)
    (htop : stack.getLast? = some gid)
    (hfail : env.captured_graph = none) :
    ∃ g2 ev,
      capture_guard_finalize g gid stack env =
        Except.ok (g2, stack.dropLast, ev) ∧
      g2.m_graph = none ∧
      g2.m_graph_instance = none ∧
      (∀ h, Event.launch h ∉ ev) ∧
      (∀ h, Event.instantiate h ∉ ev) ∧
      (∀ e, g.m_graph_instance = some e → Event.destroyExec e ∈ ev) := by
  cases hsy : g.m_synchronize_when_capture_done <;>
    cases hinst : g.m_graph_instance <;>
      · simp [capture_guard_finalize, finalize_body, htop, hfail, hsy, hinst]
        exact ⟨_, _, ⟨rfl, rfl⟩, by simp⟩

/-- C4 (witness): a manager holding template 5 and executable 6 whose capture
failed; finalize cleans up and issues no launch. -/
theorem C4_witness :
    ∃ g2 ev,
      capture_guard_finalize ⟨some 5, some 6, false⟩ 2 [2] ⟨none, true, 11⟩ =
        Except.ok (g2, [], ev) ∧
      g2.m_graph = none ∧ g2.m_graph_instance = none := by
  obtain ⟨g2, ev, hok, h1, h2, -⟩ :=
    C4_capture_failed ⟨some 5, some 6, false⟩ 2 [2] ⟨none, true, 11⟩ rfl rfl
  exact ⟨g2, ev, hok, h1, h2⟩

/-- C5: finalize performs the host-blocking device synchronization exactly
when `m_synchronize_when_capture_done` was set, clearing the flag afterwards
(so a following capture scope without a new `schedule_synchronize` call does
not synchronize); this happens whether or not the capture produced a usable
template, and `schedule_synchronize` is what sets the flag. -/
theorem C5_synchronize (g : CudaGraph) (gid : Nat) (stack : CaptureStack)
    (env : EndEnv)
    (htop : stack.getLast? = some gid) :
    ∃ g2 ev,
      capture_guard_finalize g gid stack env =
        Except.ok (g2, stack.dropLast, ev) ∧
      (g.m_synchronize_when_capture_done = true →
        Event.deviceSynchronize ∈ ev) ∧
      (g.m_synchronize_when_capture_done = false →
        Event.deviceSynchronize ∉ ev) ∧
      g2.m_synchronize_when_capture_done = false ∧
      (schedule_synchronize g).m_synchronize_when_capture_done = true := by
  cases hsy : g.m_synchronize_when_capture_done <;>
    cases hcap : env.captured_graph <;>
      cases hinst : g.m_graph_instance <;>
        cases hupd : env.update_success <;>
          · simp [capture_guard_finalize, finalize_body, update_or_rebuild,
              schedule_synchronize, htop, hcap, hsy, hinst, hupd]
            exact ⟨_, _, ⟨rfl, rfl⟩, by simp⟩

/-- C5 (witness): with the flag set and a failed capture on manager 4, the
synchronization event is still issued and the flag ends cleared. -/
theorem C5_witness :
    ∃ g2 ev,
      capture_guard_finalize ⟨none, none, true⟩ 4 [4] ⟨none, false, 8⟩ =
        Except.ok (g2, [], ev) ∧
      Event.deviceSynchronize ∈ ev ∧
      g2.m_synchronize_when_capture_done = false := by
  obtain ⟨g2, ev, hok, hmem, -, hflag, -⟩ :=
    C5_synchronize ⟨none, none, true⟩ 4 [4] ⟨none, false, 8⟩ rfl
  exact ⟨g2, ev, hok, hmem rfl, hflag⟩

/-- C6: for the null stream or the legacy/default stream, `capture_guard`
returns the inert empty guard, issues no device action at all (in particular
never begins a recording), pushes nothing onto the Capture Session Stack, and
leaves the manager state (`m_graph`, `m_graph_instance`,
`m_synchronize_when_capture_done`) unchanged. -/
theorem C6_default_stream_inert (g : CudaGraph) (gid : Nat)
    (stream : CudaStream) (env : BeginEnv) (stack : CaptureStack)
    (h : stream = CudaStream.nullStream ∨ stream = CudaStream.legacyStream) :
    capture_guard_begin g gid stream env stack =
      ⟨GuardKind.inert, g, stack, []⟩ := by
  rcases h with h | h <;> subst h <;> simp [capture_guard_begin]

/-- C6 (witness): on the null stream, a manager holding a template and an
executable with the flag set is returned untouched with an inert guard. -/
theorem C6_witness :
    capture_guard_begin ⟨some 1, some 2, true⟩ 0 CudaStream.nullStream
      cleanEnv [7] = ⟨GuardKind.inert, ⟨some 1, some 2, true⟩, [7], []⟩ :=
  C6_default_stream_inert ⟨some 1, some 2, true⟩ 0 CudaStream.nullStream
    cleanEnv [7] (Or.inl rfl)

/-- C7 (counterexample): a manager holding a template (handle 5) and NO
executable at all — so it is not "holding a stale executable with no valid
template" — still has its pre-existing template destroyed when
`capture_guard` proceeds on an ordinary stream. -/
theorem C7_counterexample :
    (capture_guard_begin ⟨some 5, none, false⟩ 0 (CudaStream.stream 1)
        cleanEnv []).events = [Event.destroyGraph 5, Event.beginCapture] ∧
    (⟨some 5, none, false⟩ : CudaGraph).m_graph_instance = none := by
  constructor
  · rfl
  · rfl

/-- C7 (amended): when `capture_guard` passes all skip conditions and the
begin-recording call succeeds, any pre-existing `m_graph` is destroyed
unconditionally (regardless of whether an executable is held); then device
recording begins and the manager is pushed onto the Capture Session Stack. -/
theorem C7_begin_discards_template (g : CudaGraph) (gid sid : Nat)
    (env : BeginEnv) (stack : CaptureStack)
    (hq : env.stream_query = Except.ok CaptureStatus.statusNone)
    (hl : env.legacy_query = LegacyQuery.ok CaptureStatus.statusNone)
    (hb : env.begin_result = none) :
    (capture_guard_begin g gid (CudaStream.stream sid) env stack).guard =
      GuardKind.capturing ∧
    (capture_guard_begin g gid (CudaStream.stream sid) env stack).state.m_graph
      = none ∧
    (capture_guard_begin g gid (CudaStream.stream sid) env stack).stack =
      push_back stack gid ∧
    (∀ h, g.m_graph = some h →
      (capture_guard_begin g gid (CudaStream.stream sid) env stack).events =
        [Event.destroyGraph h, Event.beginCapture]) ∧
    (g.m_graph = none →
      (capture_guard_begin g gid (CudaStream.stream sid) env stack).events =
        [Event.beginCapture]) := by
  cases hg : g.m_graph <;>
    simp [capture_guard_begin, hq, hl, hb, hg]

/-- C7 (amended, witness): the counterexample manager — template 5, no
executable — proceeds to capture with the template destroyed and manager 0
pushed. -/
theorem C7_witness :
    (capture_guard_begin ⟨some 5, none, false⟩ 0 (CudaStream.stream 1)
        cleanEnv []).guard = GuardKind.capturing ∧
    (capture_guard_begin ⟨some 5, none, false⟩ 0 (CudaStream.stream 1)
        cleanEnv []).state.m_graph = none ∧
    (capture_guard_begin ⟨some 5, none, false⟩ 0 (CudaStream.stream 1)
        cleanEnv []).stack = push_back [] 0 := by
  obtain ⟨h1, h2, h3, -, -⟩ :=
    C7_begin_discards_template ⟨some 5, none, false⟩ 0 1 cleanEnv []
      rfl rfl rfl
  exact ⟨h1, h2, h3⟩

/-- C8: the destructor releases both handles through `reset()` (after a
successful `reset()` both are absent), never propagates a cleanup error to
the caller, swallows entirely (without even logging) an error whose message
mentions "driver shutting down", and at most logs any other cleanup error. -/
theorem C8_destructor_swallows (g : CudaGraph) (err : Option String) :
    (destructor g err).propagated = none ∧
    (destructor g none).final = some (reset g).1 ∧
    (reset g).1.m_graph = none ∧
    (reset g).1.m_graph_instance = none ∧
    (∀ e, err = some e →
      (destructor g err).logged_warning = !mentions_driver_shutdown e) ∧
    mentions_driver_shutdown
      "CUDA Error: cudaGraphDestroy failed: driver shutting down" = true := by
  refine ⟨?_, rfl, ?_, ?_, ?_, by decide⟩
  · cases err <;> rfl
  · cases hg : g.m_graph <;> cases hi : g.m_graph_instance <;>
      simp [reset, hg, hi]
  · cases hg : g.m_graph <;> cases hi : g.m_graph_instance <;>
      simp [reset, hg, hi]
  · rintro e rfl
    rfl

/-- C9: `reset()` on a manager holding neither handle is a no-op (same state,
no destroy events), and after any `reset()` both handles are absent, so a
second `reset()` changes nothing: reset is idempotent. -/
theorem C9_reset_idempotent (g : CudaGraph) (b : Bool) :
    reset ⟨none, none, b⟩ = (⟨none, none, b⟩, []) ∧
    (reset g).1.m_graph = none ∧
    (reset g).1.m_graph_instance = none ∧
    reset (reset g).1 = ((reset g).1, []) := by
  refine ⟨rfl, ?_, ?_, ?_⟩ <;>
    cases hg : g.m_graph <;> cases hi : g.m_graph_instance <;>
      simp [reset, hg, hi]

/-- In every branch of `capture_guard_begin`, either the returned guard is the
capturing one or the Capture Session Stack is returned unchanged. -/
lemma begin_stack_cases (g : CudaGraph) (gid : Nat) (s : CudaStream)
    (e : BeginEnv) (stack : CaptureStack) :
    (capture_guard_begin g gid s e stack).guard = GuardKind.capturing ∨
    (capture_guard_begin g gid s e stack).stack = stack := by
  unfold capture_guard_begin
  repeat' split
  all_goals simp

/-- C10: when all skip conditions pass but `cudaStreamBeginCapture` fails,
`capture_guard` propagates that error, the Capture Session Stack is left
unchanged (the manager was not pushed), and no recording is in progress and
no finalize action is registered (the guard is not a capturing guard); in
general the stack changes only when a capturing guard is returned. -/
theorem C10_begin_error_no_push (g : CudaGraph) (gid sid : Nat)
    (env : BeginEnv) (stack : CaptureStack) (msg : String)
    (hq : env.stream_query = Except.ok CaptureStatus.statusNone)
    (hl : env.legacy_query = LegacyQuery.ok CaptureStatus.statusNone)
    (hb : env.begin_result = some msg) :
    (capture_guard_begin g gid (CudaStream.stream sid) env stack).guard =
      GuardKind.err msg ∧
    (capture_guard_begin g gid (CudaStream.stream sid) env stack).stack =
      stack ∧
    Event.beginCapture ∉
      (capture_guard_begin g gid (CudaStream.stream sid) env stack).events ∧
    (∀ (s : CudaStream) (e : BeginEnv),
      (capture_guard_begin g gid s e stack).guard ≠ GuardKind.capturing →
      (capture_guard_begin g gid s e stack).stack = stack) := by
  refine ⟨?_, ?_, ?_, ?_⟩
  · cases hg : g.m_graph <;> simp [capture_guard_begin, hq, hl, hb, hg]
  · cases hg : g.m_graph <;> simp [capture_guard_begin, hq, hl, hb, hg]
  · cases hg : g.m_graph <;> simp [capture_guard_begin, hq, hl, hb, hg]
  · intro s e h
    exact (begin_stack_cases g gid s e stack).resolve_left h

/-- C10 (witness): with a begin-recording failure message "boom" on manager
3, the error propagates and the stack [9] is unchanged. -/
theorem C10_witness :
    (capture_guard_begin ⟨none, some 2, false⟩ 3 (CudaStream.stream 0)
        ⟨Except.ok CaptureStatus.statusNone,
          LegacyQuery.ok CaptureStatus.statusNone, some "boom"⟩ [9]).guard =
      GuardKind.err "boom" ∧
    (capture_guard_begin ⟨none, some 2, false⟩ 3 (CudaStream.stream 0)
        ⟨Except.ok CaptureStatus.statusNone,
          LegacyQuery.ok CaptureStatus.statusNone, some "boom"⟩ [9]).stack =
      [9] := by
  obtain ⟨h1, h2, -, -⟩ :=
    C10_begin_error_no_push ⟨none, some 2, false⟩ 3 0
      ⟨Except.ok CaptureStatus.statusNone,
        LegacyQuery.ok CaptureStatus.statusNone, some "boom"⟩ [9] "boom"
      rfl rfl rfl
  exact ⟨h1, h2⟩

end tcnn
